import Mathlib

/-!
Verification of the payment-routing and webhook-delivery subsystem of the
`lnd-rpc-js` gateway, against its design specification.

The JavaScript sources are shallowly embedded as Lean definitions:

* `detectAddressType` (src/payment-processor.js) — the destination classifier.
* `isLightningDestination` / `sendPaymentRoute` (src/rpc/lightning-rpc.js) —
  the unified Lightning/on-chain client's internal routing predicate.
* `sendWebhook` (src/webhook-manager.js) — webhook delivery with retries,
  modelled as a trace-producing function; the outcome of each HTTP POST and of
  the failure-record file write is an oracle parameter (`Except` values model
  JavaScript exceptions caught by the corresponding `try`/`catch`).
* `processPayment` / `movePaymentFile` / `savePaymentWithError`
  (src/payment-processor.js) — the orchestrator, modelled as a function from a
  request record and a side-effect oracle to a result, the final (mutated)
  record, and the ordered trace of performed operations.
* `ingestPayment` (src/server.js, POST /payment) — ingestion validation and
  record construction, including the JavaScript `parseInt` coercion of the
  `amount` field.
* `applyPEvent`/`applyPEvents` — a two-partition file-store state, used to
  verify the write-then-delete recoverability invariant of the pending→sent
  move.

JavaScript string builtins used by the sources are modelled on `List Char`
(`jsToLower`, `jsStartsWith`, `jsIncludesChar`, `jsSplitChar`): for the ASCII
strings these functions are applied to, the models agree with
`String.prototype.toLowerCase`, `startsWith`, `includes` and `split` with a
one-character separator.
-/

deriving instance DecidableEq for Except

/- ========================================================================
   JavaScript string builtins, modelled on List Char
   ======================================================================== -/

/-- JavaScript string truthiness: a string is truthy iff it is non-empty. -/
def truthyStr (s : String) : Bool :=
  s != ""

/-- Model of `String.prototype.toLowerCase` (ASCII-exact). -/
def jsToLower (s : String) : String :=
  String.mk (s.toList.map Char.toLower)

/-- List-level `startsWith`. -/
def listStartsWith : List Char → List Char → Bool
  | _, [] => true
  | [], _ :: _ => false
  | c :: cs, p :: ps => c == p && listStartsWith cs ps

/-- Model of `String.prototype.startsWith`. -/
def jsStartsWith (s pre : String) : Bool :=
  listStartsWith s.toList pre.toList

/-- Model of `String.prototype.includes` with a one-character argument. -/
def jsIncludesChar (s : String) (c : Char) : Bool :=
  s.toList.contains c

/-- Helper for `jsSplitChar`: accumulate the current piece (reversed). -/
def jsSplitCharAux (sep : Char) : List Char → List Char → List (List Char)
  | [], acc => [acc.reverse]
  | c :: cs, acc =>
      if c == sep then acc.reverse :: jsSplitCharAux sep cs []
      else jsSplitCharAux sep cs (c :: acc)

/-- Model of `String.prototype.split` with a one-character separator:
`"a@b".split('@') = ["a","b"]`, `"@x".split('@') = ["","x"]`,
`"ab".split('@') = ["ab"]`. -/
def jsSplitChar (s : String) (sep : Char) : List String :=
  (jsSplitCharAux sep s.toList []).map String.mk

/- ========================================================================
   Address classification (src/payment-processor.js, detectAddressType)
   ======================================================================== -/

/-- Character class `[a-km-zA-HJ-NP-Z1-9]` of the legacy Bitcoin address
regex in `detectAddressType`. -/
def base58LegacyChar (c : Char) : Bool :=
  ('a' ≤ c && c ≤ 'k') || ('m' ≤ c && c ≤ 'z') ||
  ('A' ≤ c && c ≤ 'H') || ('J' ≤ c && c ≤ 'N') || ('P' ≤ c && c ≤ 'Z') ||
  ('1' ≤ c && c ≤ '9')

/-- Character class `[a-zA-HJ-NP-Z0-9]` of the bech32 regexes
(`bc1...` and `lq1...`) in `detectAddressType`. -/
def bech32BodyChar (c : Char) : Bool :=
  ('a' ≤ c && c ≤ 'z') ||
  ('A' ≤ c && c ≤ 'H') || ('J' ≤ c && c ≤ 'N') || ('P' ≤ c && c ≤ 'Z') ||
  ('0' ≤ c && c ≤ '9')

/-- Character class `[2-9A-HJ-NP-Z]` (first character of the Liquid legacy
regex). -/
def liquidFirstChar (c : Char) : Bool :=
  ('2' ≤ c && c ≤ '9') ||
  ('A' ≤ c && c ≤ 'H') || ('J' ≤ c && c ≤ 'N') || ('P' ≤ c && c ≤ 'Z')

/-- Character class `[1-9A-HJ-NP-Za-km-z]` (body of the Liquid legacy
regex). -/
def liquidBodyChar (c : Char) : Bool :=
  ('1' ≤ c && c ≤ '9') ||
  ('A' ≤ c && c ≤ 'H') || ('J' ≤ c && c ≤ 'N') || ('P' ≤ c && c ≤ 'Z') ||
  ('a' ≤ c && c ≤ 'k') || ('m' ≤ c && c ≤ 'z')

/-- Anchored regex `^[first][body]{lo,hi}$`: first character from `first`,
remaining characters from `body`, with repetition bounds `lo`/`hi`. -/
def matchFirstBody (first : Char → Bool) (body : Char → Bool)
    (lo hi : Nat) (s : String) : Bool :=
  match s.toList with
  | [] => false
  | c :: rest =>
      first c && decide (lo ≤ rest.length) && decide (rest.length ≤ hi)
        && rest.all body

/-- Anchored regex `^pre[body]{lo,hi}$` with a literal multi-character
prefix such as `bc1` or `lq1`. -/
def matchLiteralThenBody (pre : String) (body : Char → Bool)
    (lo hi : Nat) (s : String) : Bool :=
  jsStartsWith s pre &&
    (let rest := s.toList.drop pre.toList.length
     decide (lo ≤ rest.length) && decide (rest.length ≤ hi) && rest.all body)

/-- The Bitcoin-address test of `detectAddressType`:
`/^[13][a-km-zA-HJ-NP-Z1-9]{25,34}$/ || /^bc1[a-zA-HJ-NP-Z0-9]{39,59}$/ ||
/^3[a-km-zA-HJ-NP-Z1-9]{25,34}$/` (the third disjunct is subsumed by the
first, exactly as in the source). -/
def matchesBitcoinAddress (s : String) : Bool :=
  matchFirstBody (fun c => c == '1' || c == '3') base58LegacyChar 25 34 s ||
  matchLiteralThenBody "bc1" bech32BodyChar 39 59 s ||
  matchFirstBody (fun c => c == '3') base58LegacyChar 25 34 s

/-- The Liquid-address test of `detectAddressType`:
`/^[2-9A-HJ-NP-Z][1-9A-HJ-NP-Za-km-z]{25,39}$/ ||
/^lq1[a-zA-HJ-NP-Z0-9]{39,59}$/`. -/
def matchesLiquidAddress (s : String) : Bool :=
  matchFirstBody liquidFirstChar liquidBodyChar 25 39 s ||
  matchLiteralThenBody "lq1" bech32BodyChar 39 59 s

/-- Inner condition of the Lightning-address branch of `detectAddressType`:
`const [username, domain] = address.split('@');
 if (username && domain && domain.includes('.'))`.
JavaScript string truthiness is non-emptiness. -/
def lightningAddressParts (parts : List String) : Bool :=
  match parts with
  | [username, domain] =>
      truthyStr username && truthyStr domain && jsIncludesChar domain '.'
  | _ => false

/-- Fall-through tail of `detectAddressType`: the Bitcoin regex test, then
the Liquid regex test, then `'unknown'`. -/
def detectAddressTypeTail (address : String) : String :=
  if matchesBitcoinAddress address then "bitcoin"
  else if matchesLiquidAddress address then "liquid"
  else "unknown"

/-- Embedding of `PaymentProcessor.detectAddressType` (src/payment-processor.js):
1. `address.toLowerCase().startsWith('ln')` → `'lightning'`;
2. `address.includes('@') && address.split('@').length === 2` and the inner
   username/domain condition → `'lightning'`;
3. otherwise the Bitcoin / Liquid regex tests, else `'unknown'`. -/
def detectAddressType (address : String) : String :=
  if jsStartsWith (jsToLower address) "ln" then "lightning"
  else if jsIncludesChar address '@' && (jsSplitChar address '@').length == 2
          && lightningAddressParts (jsSplitChar address '@') then "lightning"
  else detectAddressTypeTail address

/- ========================================================================
   Unified client routing (src/rpc/lightning-rpc.js)
   ======================================================================== -/

/-- Embedding of `LightningRPC.isLightningDestination` (src/rpc/lightning-rpc.js):
`true` when the destination starts (case-insensitively) with `ln`, or when it
contains `'@'` and does **not** contain `'.'`; otherwise `false`
("assume Bitcoin address if not clearly Lightning"). -/
def isLightningDestination (destination : String) : Bool :=
  if jsStartsWith (jsToLower destination) "ln" then true
  else if jsIncludesChar destination '@' && !(jsIncludesChar destination '.')
    then true
  else false

/-- The two code paths of the unified `LightningRPC.sendPayment`. -/
inductive PayRoute where
  | lightningPayment
  | onChain
deriving DecidableEq, Repr

/-- Routing decision of `LightningRPC.sendPayment`: the channel
(`sendLightningPayment`) path when `isLightningDestination` holds, the
on-chain (`sendOnChain`) path otherwise. -/
def sendPaymentRoute (destination : String) : PayRoute :=
  if isLightningDestination destination then .lightningPayment else .onChain

/- ========================================================================
   C2 / C9 theorems
   ======================================================================== -/

/-- C2: the unified client's internal classifier disagrees with the §4.1
classifier on the Lightning address `alice@example.com` (exactly one `'@'`,
dot after the `'@'`): `detectAddressType` tags it `lightning`, but
`isLightningDestination` returns `false` — because the string contains a
`'.'` — so `sendPayment` takes the **on-chain** branch, not the channel
branch the claim (and the repository's own documentation) requires. -/
theorem lightningAddress_routed_onchain :
    detectAddressType "alice@example.com" = "lightning" ∧
    isLightningDestination "alice@example.com" = false ∧
    sendPaymentRoute "alice@example.com" = PayRoute.onChain := by
  refine ⟨by decide, by decide, by decide⟩

/-- C9 counterexample: `"@a.b"` contains exactly one `'@'` and the part after
the `'@'` contains a `'.'`, yet `detectAddressType` returns `"unknown"`,
not the lightning tag — the empty username falsifies the inner truthiness
check and the string falls through every regex. -/
theorem detect_at_empty_username_unknown :
    jsIncludesChar "@a.b" '@' = true ∧ jsSplitChar "@a.b" '@' = ["", "a.b"] ∧
    jsIncludesChar "a.b" '.' = true ∧
    detectAddressType "@a.b" = "unknown" := by
  refine ⟨by decide, by decide, by decide, by decide⟩

/-- C9 (amended): if the destination contains a `'@'`, splits on `'@'` into
exactly two parts, the part **before** the `'@'` is non-empty, and the part
after the `'@'` contains a `'.'`, then `detectAddressType` returns the
lightning tag; and `plainstring@nodot` (no dot after the `'@'`) is not tagged
lightning (it is `unknown`). -/
theorem detect_lightning_address (s u d : String)
    (hat : jsIncludesChar s '@' = true)
    (hsplit : jsSplitChar s '@' = [u, d])
    (hu : truthyStr u = true)
    (hd : jsIncludesChar d '.' = true) :
    detectAddressType s = "lightning" ∧
    detectAddressType "plainstring@nodot" = "unknown" := by
  constructor
  · unfold detectAddressType
    by_cases hln : jsStartsWith (jsToLower s) "ln"
    · simp [hln]
    · have hdne : truthyStr d = true := by
        rcases hde : d == "" with _ | _
        · simp only [truthyStr, bne, hde, Bool.not_false]
        · exfalso
          have hdd : d = "" := by
            have h2 := hde
            rwa [beq_iff_eq] at h2
          rw [hdd] at hd
          exact absurd hd (by decide)
      simp [hln, hat, hsplit, lightningAddressParts, hu, hdne, hd]
  · decide

/-- C9 witness: the amended theorem applied to the concrete Lightning address
`alice@example.com`. -/
theorem detect_lightning_address_witness :
    detectAddressType "alice@example.com" = "lightning" ∧
    detectAddressType "plainstring@nodot" = "unknown" :=
  detect_lightning_address "alice@example.com" "alice" "example.com"
    (by decide) (by decide) (by decide) (by decide)

/- ========================================================================
   Webhook delivery (src/webhook-manager.js, WebhookManager.sendWebhook)
   ======================================================================== -/

/-- The `webhooks` section of config.json consumed by `WebhookManager`. -/
structure WebhookConfig where
  enabled : Bool
  timeout : Nat
  retryAttempts : Nat
  retryDelay : Nat
  logFailures : Bool
  saveFailedWebhooks : Bool
deriving DecidableEq, Repr

/-- Observable side effects of one `sendWebhook` call, in execution order:
an HTTP POST attempt (1-based attempt number, as logged), a retry-delay
sleep, the structured `WEBHOOK_FAILURE` log, a successful failure-record
file write, or a failure-record write whose own exception was caught. -/
inductive WHEvent where
  | httpPost (attemptNumber : Nat)
  | sleep (ms : Nat)
  | logFailure
  | saveFailedRecord
  | saveFailedWriteError
deriving DecidableEq, Repr

/-- Returns `true` on `.error` — a JavaScript call that threw. -/
def isErr (r : Except String Unit) : Bool :=
  match r with
  | .error _ => true
  | .ok _ => false

/-- Embedding of `WebhookManager.saveFailedWebhook`: writes one failure-record file; its
own `try`/`catch` absorbs a write exception (logging it), so the caller
never sees an error either way. -/
def saveFailedWebhook (writeRes : Except String Unit) : List WHEvent :=
  match writeRes with
  | .ok _ => [.saveFailedRecord]
  | .error _ => [.saveFailedWriteError]

/-- The `while (attempt < maxAttempts)` retry loop of `sendWebhook`.
`post i` is the outcome of the HTTP POST on (0-based) attempt `i` (`.error`
models the axios rejection caught by the loop's `catch`); `writeRes` is the
outcome of the failure-record write. `fuel` bounds the iterations; callers
pass `fuel = maxAttempts - attempt`, which makes the `fuel = 0` exit coincide
with the `return false` after the loop. -/
def sendWebhookLoop (cfg : WebhookConfig) (post : Nat → Except String Unit)
    (writeRes : Except String Unit) :
    Nat → Nat → Nat → Bool × List WHEvent
  | _, _, 0 => (false, [])
  | attempt, maxAttempts, fuel + 1 =>
    if attempt < maxAttempts then
      if isErr (post attempt) then
        if maxAttempts ≤ attempt + 1 then
          (false, WHEvent.httpPost (attempt + 1) ::
            ((if cfg.logFailures then [WHEvent.logFailure] else []) ++
             (if cfg.saveFailedWebhooks then saveFailedWebhook writeRes
              else [])))
        else
          let r := sendWebhookLoop cfg post writeRes
                     (attempt + 1) maxAttempts fuel
          (r.1, WHEvent.httpPost (attempt + 1) ::
                  WHEvent.sleep cfg.retryDelay :: r.2)
      else (true, [.httpPost (attempt + 1)])
    else (false, [])

/-- One-step unfolding of the retry loop (used to drive the induction). -/
theorem sendWebhookLoop_fuel_succ (cfg : WebhookConfig)
    (post : Nat → Except String Unit) (writeRes : Except String Unit)
    (attempt maxAttempts fuel : Nat) :
    sendWebhookLoop cfg post writeRes attempt maxAttempts (fuel + 1) =
    (if attempt < maxAttempts then
      if isErr (post attempt) then
        if maxAttempts ≤ attempt + 1 then
          (false, WHEvent.httpPost (attempt + 1) ::
            ((if cfg.logFailures then [WHEvent.logFailure] else []) ++
             (if cfg.saveFailedWebhooks then saveFailedWebhook writeRes
              else [])))
        else
          let r := sendWebhookLoop cfg post writeRes
                     (attempt + 1) maxAttempts fuel
          (r.1, WHEvent.httpPost (attempt + 1) ::
                  WHEvent.sleep cfg.retryDelay :: r.2)
      else (true, [.httpPost (attempt + 1)])
    else (false, [])) := rfl

/-- Embedding of `WebhookManager.sendWebhook`: returns `true` immediately when webhooks
are disabled; otherwise runs the retry loop with
`maxAttempts = retryAttempts + 1` starting at `attempt = 0`. The payload
construction, HMAC signing and headers do not influence control flow and are
not modelled. -/
def sendWebhook (cfg : WebhookConfig) (post : Nat → Except String Unit)
    (writeRes : Except String Unit) : Bool × List WHEvent :=
  if !cfg.enabled then (true, [])
  else sendWebhookLoop cfg post writeRes 0 (cfg.retryAttempts + 1)
         (cfg.retryAttempts + 1)

/-- Expected trace when every attempt fails, starting at 0-based attempt `a`
with `k` retries still allowed: alternating POST/sleep pairs, a final POST,
then the configured failure side effects. -/
def allFailEvents (cfg : WebhookConfig) (writeRes : Except String Unit) :
    Nat → Nat → List WHEvent
  | a, 0 => WHEvent.httpPost (a + 1) ::
      ((if cfg.logFailures then [WHEvent.logFailure] else []) ++
       (if cfg.saveFailedWebhooks then saveFailedWebhook writeRes else []))
  | a, k + 1 => WHEvent.httpPost (a + 1) :: WHEvent.sleep cfg.retryDelay ::
      allFailEvents cfg writeRes (a + 1) k

/-- Event classifiers used to count side effects in a trace. -/
def isPostEvent (e : WHEvent) : Bool :=
  match e with
  | .httpPost _ => true
  | _ => false

/-- Sleep events. -/
def isSleepEvent (e : WHEvent) : Bool :=
  match e with
  | .sleep _ => true
  | _ => false

/-- The structured failure-log event. -/
def isLogEvent (e : WHEvent) : Bool :=
  match e with
  | .logFailure => true
  | _ => false

/-- A successful failure-record file write. -/
def isSaveRecordEvent (e : WHEvent) : Bool :=
  match e with
  | .saveFailedRecord => true
  | _ => false

/-- Any entry into `saveFailedWebhook` (write succeeded or its exception was
caught). -/
def isSaveAttemptEvent (e : WHEvent) : Bool :=
  match e with
  | .saveFailedRecord => true
  | .saveFailedWriteError => true
  | _ => false

theorem sendWebhookLoop_allFail (cfg : WebhookConfig)
    (post : Nat → Except String Unit) (w : Except String Unit)
    (hfail : ∀ i, isErr (post i) = true) :
    ∀ k a, sendWebhookLoop cfg post w a (a + k + 1) (k + 1) =
      (false, allFailEvents cfg w a k) := by
  intro k
  induction k with
  | zero =>
    intro a
    rw [sendWebhookLoop_fuel_succ, if_pos (by omega), hfail a,
      if_pos (by omega : a + 0 + 1 ≤ a + 1)]
    simp [allFailEvents]
  | succ k ih =>
    intro a
    have harith : a + (k + 1) + 1 = (a + 1) + k + 1 := by omega
    rw [sendWebhookLoop_fuel_succ, if_pos (by omega), hfail a,
      if_neg (by omega : ¬a + (k + 1) + 1 ≤ a + 1), harith, ih (a + 1)]
    simp [allFailEvents]

theorem allFailEvents_countP_post (cfg : WebhookConfig)
    (w : Except String Unit) :
    ∀ k a, (allFailEvents cfg w a k).countP isPostEvent = k + 1 := by
  intro k
  induction k with
  | zero =>
    intro a
    rcases w with e | u <;>
      rcases hl : cfg.logFailures <;> rcases hs : cfg.saveFailedWebhooks <;>
        simp [allFailEvents, hl, hs, saveFailedWebhook, List.countP_cons,
          isPostEvent]
  | succ k ih =>
    intro a
    simp [allFailEvents, List.countP_cons, isPostEvent, ih (a + 1)]

theorem allFailEvents_filter_sleep (cfg : WebhookConfig)
    (w : Except String Unit) :
    ∀ k a, (allFailEvents cfg w a k).filter isSleepEvent =
      List.replicate k (WHEvent.sleep cfg.retryDelay) := by
  intro k
  induction k with
  | zero =>
    intro a
    rcases w with e | u <;>
      rcases hl : cfg.logFailures <;> rcases hs : cfg.saveFailedWebhooks <;>
        simp [allFailEvents, hl, hs, saveFailedWebhook, isSleepEvent]
  | succ k ih =>
    intro a
    simp [allFailEvents, isSleepEvent, ih (a + 1), List.replicate_succ]

theorem allFailEvents_filter_saveAttempt (cfg : WebhookConfig)
    (w : Except String Unit) :
    ∀ k a, (allFailEvents cfg w a k).filter isSaveAttemptEvent =
      (if cfg.saveFailedWebhooks then saveFailedWebhook w else []) := by
  intro k
  induction k with
  | zero =>
    intro a
    rcases w with e | u <;>
      rcases hl : cfg.logFailures <;> rcases hs : cfg.saveFailedWebhooks <;>
        simp [allFailEvents, hl, hs, saveFailedWebhook, isSaveAttemptEvent]
  | succ k ih =>
    intro a
    simp [allFailEvents, isSaveAttemptEvent, ih (a + 1)]

theorem allFailEvents_mem_log (cfg : WebhookConfig)
    (w : Except String Unit) (hl : cfg.logFailures = true) :
    ∀ k a, WHEvent.logFailure ∈ allFailEvents cfg w a k := by
  intro k
  induction k with
  | zero => intro a; simp [allFailEvents, hl]
  | succ k ih => intro a; simp [allFailEvents, ih (a + 1)]

theorem allFailEvents_filter_saveRecord (cfg : WebhookConfig)
    (hs : cfg.saveFailedWebhooks = true) :
    ∀ k a, (allFailEvents cfg (Except.ok ()) a k).filter isSaveRecordEvent =
      [WHEvent.saveFailedRecord] := by
  intro k
  induction k with
  | zero =>
    intro a
    rcases hl : cfg.logFailures <;>
      simp [allFailEvents, hl, hs, saveFailedWebhook, isSaveRecordEvent]
  | succ k ih =>
    intro a
    simp [allFailEvents, isSaveRecordEvent, ih (a + 1)]

/-- C4 counterexample: a configuration with `retryAttempts = 2` but webhooks
disabled. `sendWebhook` with an always-failing receiver performs **zero**
HTTP attempts, returns `true`, and writes no failure record — not the
`1 + N` attempts / `false` / one record the claim asserts for *every*
configuration. -/
theorem sendWebhook_claim_counterexample :
    sendWebhook ⟨false, 10000, 2, 5000, true, true⟩
      (fun _ => Except.error "connection refused") (Except.ok ()) =
      (true, []) ∧
    ¬((sendWebhook ⟨false, 10000, 2, 5000, true, true⟩
        (fun _ => Except.error "connection refused") (Except.ok ())).1
          = false ∧
      (sendWebhook ⟨false, 10000, 2, 5000, true, true⟩
        (fun _ => Except.error "connection refused") (Except.ok ())).2.countP
          isPostEvent = 2 + 1 ∧
      (sendWebhook ⟨false, 10000, 2, 5000, true, true⟩
        (fun _ => Except.error "connection refused") (Except.ok ())).2.filter
          isSaveRecordEvent = [WHEvent.saveFailedRecord]) := by
  refine ⟨by decide, by decide⟩

/-- C4 (amended): for every configuration with webhooks **enabled** and
failure-record saving **on**, if every HTTP POST attempt fails and the
failure-record write itself succeeds, then `sendWebhook` performs exactly
`1 + retryAttempts` HTTP attempts with exactly `retryAttempts` fixed
`retryDelay` sleeps between consecutive attempts (the exact trace is
`allFailEvents`), returns `false`, and writes exactly one failure record. -/
theorem sendWebhook_all_fail_exact (cfg : WebhookConfig)
    (post : Nat → Except String Unit) (w : Except String Unit)
    (hen : cfg.enabled = true)
    (hsave : cfg.saveFailedWebhooks = true)
    (hw : w = Except.ok ())
    (hfail : ∀ i, isErr (post i) = true) :
    sendWebhook cfg post w =
      (false, allFailEvents cfg w 0 cfg.retryAttempts) ∧
    (sendWebhook cfg post w).2.countP isPostEvent = cfg.retryAttempts + 1 ∧
    (sendWebhook cfg post w).2.filter isSleepEvent =
      List.replicate cfg.retryAttempts (WHEvent.sleep cfg.retryDelay) ∧
    (sendWebhook cfg post w).2.filter isSaveRecordEvent =
      [WHEvent.saveFailedRecord] := by
  have hmain : sendWebhook cfg post w =
      (false, allFailEvents cfg w 0 cfg.retryAttempts) := by
    unfold sendWebhook
    rw [hen]
    have h := sendWebhookLoop_allFail cfg post w hfail cfg.retryAttempts 0
    simpa using h
  refine ⟨hmain, ?_, ?_, ?_⟩
  · rw [hmain]
    exact allFailEvents_countP_post cfg w cfg.retryAttempts 0
  · rw [hmain]
    exact allFailEvents_filter_sleep cfg w cfg.retryAttempts 0
  · rw [hmain, hw]
    exact allFailEvents_filter_saveRecord cfg hsave cfg.retryAttempts 0

/-- C4 witness: the amended theorem at `retryAttempts = 2`, an
always-refusing receiver and a succeeding record write. -/
theorem sendWebhook_all_fail_exact_witness :
    sendWebhook ⟨true, 10000, 2, 5000, true, true⟩
      (fun _ => Except.error "refused") (Except.ok ()) =
      (false, allFailEvents ⟨true, 10000, 2, 5000, true, true⟩
        (Except.ok ()) 0 2) ∧
    (sendWebhook ⟨true, 10000, 2, 5000, true, true⟩
      (fun _ => Except.error "refused") (Except.ok ())).2.countP
        isPostEvent = 2 + 1 ∧
    (sendWebhook ⟨true, 10000, 2, 5000, true, true⟩
      (fun _ => Except.error "refused") (Except.ok ())).2.filter
        isSleepEvent = List.replicate 2 (WHEvent.sleep 5000) ∧
    (sendWebhook ⟨true, 10000, 2, 5000, true, true⟩
      (fun _ => Except.error "refused") (Except.ok ())).2.filter
        isSaveRecordEvent = [WHEvent.saveFailedRecord] :=
  sendWebhook_all_fail_exact ⟨true, 10000, 2, 5000, true, true⟩
    (fun _ => Except.error "refused") (Except.ok ())
    rfl rfl rfl (fun _ => rfl)

/-- C5: on an enabled configuration with an always-failing receiver,
`sendWebhook` resolves to the boolean `false` — it never propagates an
exception, even when its own failure-record write throws (`w` arbitrary,
including `.error`) — and performs its durable side effects: the structured
failure log (when `logFailures`) and exactly one entry into
`saveFailedWebhook` (when `saveFailedWebhooks`), the record write's own
failure being caught internally. -/
theorem sendWebhook_never_throws (cfg : WebhookConfig)
    (post : Nat → Except String Unit) (w : Except String Unit)
    (hen : cfg.enabled = true)
    (hfail : ∀ i, isErr (post i) = true) :
    (sendWebhook cfg post w).1 = false ∧
    (cfg.logFailures = true →
      WHEvent.logFailure ∈ (sendWebhook cfg post w).2) ∧
    (cfg.saveFailedWebhooks = true →
      (sendWebhook cfg post w).2.filter isSaveAttemptEvent =
        saveFailedWebhook w) := by
  have hmain : sendWebhook cfg post w =
      (false, allFailEvents cfg w 0 cfg.retryAttempts) := by
    unfold sendWebhook
    rw [hen]
    have h := sendWebhookLoop_allFail cfg post w hfail cfg.retryAttempts 0
    simpa using h
  refine ⟨by rw [hmain], ?_, ?_⟩
  · intro hl
    rw [hmain]
    exact allFailEvents_mem_log cfg w hl cfg.retryAttempts 0
  · intro hs
    rw [hmain]
    have h := allFailEvents_filter_saveAttempt cfg w cfg.retryAttempts 0
    rw [hs] at h
    simpa using h

/-- C5 witness: concrete enabled configuration, receiver that always fails,
and a failure-record write that itself throws — the call still resolves to
`false` and records the caught write failure. -/
theorem sendWebhook_never_throws_witness :
    (sendWebhook ⟨true, 10000, 1, 5000, true, true⟩
      (fun _ => Except.error "timeout") (Except.error "disk full")).1
        = false ∧
    (true = true →
      WHEvent.logFailure ∈ (sendWebhook ⟨true, 10000, 1, 5000, true, true⟩
        (fun _ => Except.error "timeout") (Except.error "disk full")).2) ∧
    (true = true →
      (sendWebhook ⟨true, 10000, 1, 5000, true, true⟩
        (fun _ => Except.error "timeout") (Except.error "disk full")).2.filter
          isSaveAttemptEvent = saveFailedWebhook (Except.error "disk full")) :=
  sendWebhook_never_throws ⟨true, 10000, 1, 5000, true, true⟩
    (fun _ => Except.error "timeout") (Except.error "disk full")
    rfl (fun _ => rfl)

/-- C10: when webhooks are disabled in the configuration, `sendWebhook`
returns `true` with an empty trace — no HTTP attempt and no failure record —
so the boolean result is indistinguishable from a successful delivery. -/
theorem sendWebhook_disabled_returns_true (cfg : WebhookConfig)
    (post : Nat → Except String Unit) (w : Except String Unit)
    (hdis : cfg.enabled = false) :
    sendWebhook cfg post w = (true, []) ∧
    (sendWebhook cfg post w).2.countP isPostEvent = 0 ∧
    (sendWebhook cfg post w).2.filter isSaveAttemptEvent = [] := by
  have hmain : sendWebhook cfg post w = (true, []) := by
    unfold sendWebhook
    rw [hdis]
    rfl
  exact ⟨hmain, by rw [hmain]; rfl, by rw [hmain]; rfl⟩

/-- C10 witness: disabled configuration, receiver that would always fail. -/
theorem sendWebhook_disabled_returns_true_witness :
    sendWebhook ⟨false, 10000, 3, 5000, true, true⟩
      (fun _ => Except.error "refused") (Except.ok ()) = (true, []) ∧
    (sendWebhook ⟨false, 10000, 3, 5000, true, true⟩
      (fun _ => Except.error "refused") (Except.ok ())).2.countP
        isPostEvent = 0 ∧
    (sendWebhook ⟨false, 10000, 3, 5000, true, true⟩
      (fun _ => Except.error "refused") (Except.ok ())).2.filter
        isSaveAttemptEvent = [] :=
  sendWebhook_disabled_returns_true ⟨false, 10000, 3, 5000, true, true⟩
    (fun _ => Except.error "refused") (Except.ok ()) rfl

/- ========================================================================
   Payment orchestration (src/payment-processor.js)
   ======================================================================== -/

/-- The payment request record: the JSON object built by `POST /payment`
(src/server.js) and mutated in place by `processPayment`. `amount` is a
JavaScript number that is an integer, or NaN (`none`) when `parseInt`
failed. -/
structure PaymentRecord where
  id : String
  transactionId : String
  username : String
  amount : Option Int
  network : String
  destinationWallet : String
  webhookUrl : Option String
  webhookSecret : Option String
  timestamp : String
  status : String
  transactionHash : Option String
  completedAt : Option String
  networkFee : Option Int
  error : Option String
  errorAt : Option String
deriving DecidableEq, Repr

/-- Result of a backend `sendPayment` call: `{transactionHash, fee}`; `fee`
may be absent (`result.fee || 0` in the source). -/
structure SettleResult where
  transactionHash : String
  fee : Option Int
deriving DecidableEq, Repr

/-- The two settlement backends reachable from `processPayment`. -/
inductive Backend where
  | lnd
  | liquidNode
deriving DecidableEq, Repr

/-- Observable side effects of one `processPayment` call, in program order.
Webhook fires carry the event name and the record as of the fire (the
webhook payload `data`); persistence events carry the file key and the
written record. Events are emitted when the operation is initiated. -/
inductive PEvent where
  | webhookSend (event : String) (rec : PaymentRecord)
  | settlementCall (backend : Backend) (destination : String)
      (amount : Option Int)
  | persistSent (key : String) (rec : PaymentRecord)
  | deletePending (key : String)
  | persistError (key : String) (rec : PaymentRecord)
deriving DecidableEq, Repr

/-- Side-effect oracle for one `processPayment` call: outcomes of the two
backend `sendPayment` calls, of the `payment_sent` file write, of the
`existsSync` check and `unlinkSync` on the pending file, and of the
`ERROR_` file write. `.error` models a thrown JavaScript exception. -/
structure PPOracle where
  lnSend : Except String SettleResult
  lqSend : Except String SettleResult
  writeSent : Except String Unit
  pendingExists : Bool
  unlinkRes : Except String Unit
  writeErrorFile : Except String Unit

/-- The storage key `{id}_{transactionId}` used for both partitions. -/
def fileKey (r : PaymentRecord) : String :=
  r.id ++ "_" ++ r.transactionId

/-- Embedding of `if (paymentRequest.webhookUrl) await sendWebhook(...)`: the orchestrator
fires the webhook only when a URL is present, awaits it, and discards its
boolean result (`sendWebhook` itself is total and never throws). -/
def webhookFireEvents (eventName : String) (r : PaymentRecord) :
    List PEvent :=
  match r.webhookUrl with
  | some _ => [PEvent.webhookSend eventName r]
  | none => []

/-- Embedding of `PaymentProcessor.movePaymentFile`: write the full updated record into
`payment_sent/{id}_{transactionId}.json`, then — if the pending file exists —
delete it. A thrown write/unlink exception propagates to the caller. -/
def movePaymentFile (o : PPOracle) (r : PaymentRecord) :
    Except String Unit × List PEvent :=
  match o.writeSent with
  | .error e => (.error e, [.persistSent (fileKey r) r])
  | .ok _ =>
    if o.pendingExists then
      match o.unlinkRes with
      | .error e =>
          (.error e, [.persistSent (fileKey r) r,
                      .deletePending (fileKey r)])
      | .ok _ =>
          (.ok (), [.persistSent (fileKey r) r,
                    .deletePending (fileKey r)])
    else (.ok (), [.persistSent (fileKey r) r])

/-- Embedding of `PaymentProcessor.savePaymentWithError`: write the record into the
pending partition under the `ERROR_`-prefixed key; a thrown write exception
propagates. -/
def savePaymentWithError (o : PPOracle) (r : PaymentRecord) :
    Except String Unit × List PEvent :=
  (o.writeErrorFile, [.persistError ("ERROR_" ++ fileKey r) r])

/-- The `catch` block of `processPayment`: mutate the record to its error
state, fire the `payment.failed` webhook when a URL is present, write the
error record, then re-throw. When `savePaymentWithError` itself throws, that
exception propagates instead of the original one (there is no inner
`try`/`catch`). -/
def catchBlock (o : PPOracle) (now : String) (r : PaymentRecord)
    (msg : String) : Except String SettleResult × PaymentRecord × List PEvent :=
  let r' := { r with
    status := "error",
    error := some msg,
    errorAt := some now }
  let whEvents := webhookFireEvents "payment.failed" r'
  let save := savePaymentWithError o r'
  match save.1 with
  | .ok _ => (.error msg, r', whEvents ++ save.2)
  | .error m2 => (.error m2, r', whEvents ++ save.2)

/-- The network `switch` of `processPayment`: `bitcoin`/`lightning` go to the
unified LND client, `liquid` to the Elements client, anything else throws
`Rede não suportada`. -/
def routeSettlement (o : PPOracle) (network destination : String)
    (amount : Option Int) : Except String SettleResult × List PEvent :=
  if network == "bitcoin" || network == "lightning" then
    (o.lnSend, [.settlementCall .lnd destination amount])
  else if network == "liquid" then
    (o.lqSend, [.settlementCall .liquidNode destination amount])
  else (.error ("Rede não suportada: " ++ network), [])

/-- Embedding of `PaymentProcessor.processPayment`: pending webhook (when a URL is
present) → network routing and settlement call → on success mutate the
record to `sent`, fire `payment.completed`, move the file pending→sent; on
any thrown error run the `catch` block. Returns the settlement result or
error, the final record, and the ordered side-effect trace. -/
def processPayment (o : PPOracle) (now : String) (req : PaymentRecord) :
    Except String SettleResult × PaymentRecord × List PEvent :=
  let pendingEvents := webhookFireEvents "payment.pending" req
  let route := routeSettlement o (jsToLower req.network)
                 req.destinationWallet req.amount
  match route.1 with
  | .ok result =>
    let req' := { req with
      status := "sent",
      transactionHash := some result.transactionHash,
      completedAt := some now,
      networkFee := some (result.fee.getD 0) }
    let completedEvents := webhookFireEvents "payment.completed" req'
    let mv := movePaymentFile o req'
    match mv.1 with
    | .ok _ =>
        (.ok result, req', pendingEvents ++ route.2 ++ completedEvents ++
          mv.2)
    | .error msg =>
        let c := catchBlock o now req' msg
        (c.1, c.2.1, pendingEvents ++ route.2 ++ completedEvents ++ mv.2 ++
          c.2.2)
  | .error msg =>
    let c := catchBlock o now req msg
    (c.1, c.2.1, pendingEvents ++ route.2 ++ c.2.2)

/- ========================================================================
   Event classifiers and trace ordering
   ======================================================================== -/

/-- The `payment.pending` webhook fire. -/
def isPendingWebhookEvent (e : PEvent) : Bool :=
  match e with
  | .webhookSend n _ => n == "payment.pending"
  | _ => false

/-- A terminal webhook fire (`payment.completed` or `payment.failed`). -/
def isTerminalWebhookEvent (e : PEvent) : Bool :=
  match e with
  | .webhookSend n _ => n == "payment.completed" || n == "payment.failed"
  | _ => false

/-- A settlement call to either backend. -/
def isSettlementEvent (e : PEvent) : Bool :=
  match e with
  | .settlementCall _ _ _ => true
  | _ => false

/-- A terminal-state persistence: the sent-partition write or the
error-tagged write. -/
def isTerminalPersistEvent (e : PEvent) : Bool :=
  match e with
  | .persistSent _ _ => true
  | .persistError _ _ => true
  | _ => false

/-- Predicate `orderedEvents p q t` holds iff in trace `t` every event satisfying `p`
occurs at a strictly earlier position than every event satisfying `q`
(vacuously true when either kind is absent). -/
def orderedEvents (p q : PEvent → Bool) : List PEvent → Bool
  | [] => true
  | e :: rest =>
      if q e then !p e && rest.all (fun x => !p x)
      else orderedEvents p q rest

/- ========================================================================
   Fixtures for concrete evaluations
   ======================================================================== -/

/-- A concrete accepted Lightning payment request with a webhook URL. -/
def reqLn : PaymentRecord := {
  id := "id1",
  transactionId := "t1",
  username := "alice",
  amount := some 1000,
  network := "lightning",
  destinationWallet := "lnbc1xyz",
  webhookUrl := some "https://example.com/hook",
  webhookSecret := none,
  timestamp := "2026-01-01T00:00:00.000Z",
  status := "pending",
  transactionHash := none,
  completedAt := none,
  networkFee := none,
  error := none,
  errorAt := none }

/-- Oracle in which every side effect succeeds. -/
def oracleAllOk : PPOracle :=
  ⟨.ok ⟨"hash1", some 7⟩, .ok ⟨"lqhash", some 3⟩, .ok (), true, .ok (),
   .ok ()⟩

/-- Oracle in which the settlement call throws and the error-record write
also throws. -/
def oracleSettleFailDiskFail : PPOracle :=
  ⟨.error "settlement failed", .ok ⟨"lqhash", some 3⟩, .ok (), true, .ok (),
   .error "disk full"⟩

/-- Oracle in which the settlement call throws but all file writes
succeed. -/
def oracleSettleFail : PPOracle :=
  ⟨.error "no route", .ok ⟨"lqhash", some 3⟩, .ok (), true, .ok (), .ok ()⟩

/- ========================================================================
   C1 theorems
   ======================================================================== -/

/-- C1 counterexample: on a successful Lightning payment with a webhook URL,
the trace is pending-webhook → settlement → **completed-webhook** →
sent-partition write → pending delete, so the terminal-state persistence
does **not** happen before the terminal webhook fire: the code fires
`payment.completed` first and persists afterwards. -/
theorem processPayment_persist_after_terminal_webhook :
    orderedEvents isTerminalPersistEvent isTerminalWebhookEvent
      (processPayment oracleAllOk "2026-01-01T00:00:01.000Z" reqLn).2.2
        = false ∧
    (processPayment oracleAllOk "2026-01-01T00:00:01.000Z" reqLn).2.2 =
      [PEvent.webhookSend "payment.pending" reqLn,
       PEvent.settlementCall Backend.lnd "lnbc1xyz" (some 1000),
       PEvent.webhookSend "payment.completed"
         { reqLn with
           status := "sent",
           transactionHash := some "hash1",
           completedAt := some "2026-01-01T00:00:01.000Z",
           networkFee := some 7 },
       PEvent.persistSent "id1_t1"
         { reqLn with
           status := "sent",
           transactionHash := some "hash1",
           completedAt := some "2026-01-01T00:00:01.000Z",
           networkFee := some 7 },
       PEvent.deletePending "id1_t1"] := by
  refine ⟨by decide, by decide⟩

/-- C1 (amended): within one `processPayment` call in which the file writes
and the unlink succeed, the pending webhook fire precedes the settlement
call, the settlement call precedes the terminal webhook fire
(`payment.completed`/`payment.failed`), and the terminal webhook fire
precedes the terminal-state persistence (the sent-partition write on
success, the error-tagged write on failure) — i.e. the spec's last two
stages in fact occur in the opposite of the claimed order, webhook first. -/
theorem processPayment_event_order (o : PPOracle) (now : String)
    (req : PaymentRecord)
    (hw : o.writeSent = Except.ok ()) (hu : o.unlinkRes = Except.ok ())
    (he : o.writeErrorFile = Except.ok ()) :
    orderedEvents isPendingWebhookEvent isSettlementEvent
      (processPayment o now req).2.2 = true ∧
    orderedEvents isSettlementEvent isTerminalWebhookEvent
      (processPayment o now req).2.2 = true ∧
    orderedEvents isTerminalWebhookEvent isTerminalPersistEvent
      (processPayment o now req).2.2 = true := by
  unfold processPayment routeSettlement catchBlock movePaymentFile
    savePaymentWithError webhookFireEvents
  rw [hw, hu, he]
  rcases hurl : req.webhookUrl with _ | u <;>
    rcases hln : o.lnSend with el | rl <;>
      rcases hlq : o.lqSend with el2 | rl2 <;>
        rcases hpe : o.pendingExists with _ | _ <;>
          by_cases hb : (jsToLower req.network == "bitcoin" ||
              jsToLower req.network == "lightning") = true <;>
            by_cases hq : (jsToLower req.network == "liquid") = true <;>
              simp [hurl, hln, hlq, hpe, hb, hq, orderedEvents,
                isPendingWebhookEvent, isSettlementEvent,
                isTerminalWebhookEvent, isTerminalPersistEvent]

/-- C1 witness: the amended ordering at the concrete successful run. -/
theorem processPayment_event_order_witness :
    orderedEvents isPendingWebhookEvent isSettlementEvent
      (processPayment oracleAllOk "2026-01-01T00:00:01.000Z" reqLn).2.2
        = true ∧
    orderedEvents isSettlementEvent isTerminalWebhookEvent
      (processPayment oracleAllOk "2026-01-01T00:00:01.000Z" reqLn).2.2
        = true ∧
    orderedEvents isTerminalWebhookEvent isTerminalPersistEvent
      (processPayment oracleAllOk "2026-01-01T00:00:01.000Z" reqLn).2.2
        = true :=
  processPayment_event_order oracleAllOk "2026-01-01T00:00:01.000Z" reqLn
    rfl rfl rfl

/- ========================================================================
   C8 theorems
   ======================================================================== -/

/-- C8 counterexample: the settlement call throws `settlement failed`, and
the error-record write itself throws `disk full`; `processPayment` then
propagates the **write** error, replacing the original settlement error —
contradicting the claim that the error-record file write never replaces the
original error. -/
theorem processPayment_error_replaced_by_write_error :
    (processPayment oracleSettleFailDiskFail "2026-01-01T00:00:01.000Z"
      reqLn).1 = Except.error "disk full" ∧
    (processPayment oracleSettleFailDiskFail "2026-01-01T00:00:01.000Z"
      reqLn).1 ≠ Except.error "settlement failed" := by
  refine ⟨by decide, by decide⟩

/-- C8 (amended): when the settlement phase throws `e` and the error-record
write **succeeds**, `processPayment` completes the failure bookkeeping in
order — status/error/errorAt mutation, `payment.failed` webhook when a URL
is present (webhook delivery itself never throws, so it cannot replace the
error), the `ERROR_`-tagged write — and re-throws the original error `e`;
but if the error-record write itself throws, that write error propagates
instead. -/
theorem processPayment_propagates_original_error (o : PPOracle)
    (now : String) (req : PaymentRecord) (e : String)
    (hroute : (routeSettlement o (jsToLower req.network)
      req.destinationWallet req.amount).1 = Except.error e)
    (hwe : o.writeErrorFile = Except.ok ()) :
    processPayment o now req =
      (Except.error e,
       { req with status := "error", error := some e, errorAt := some now },
       webhookFireEvents "payment.pending" req ++
       (routeSettlement o (jsToLower req.network) req.destinationWallet
         req.amount).2 ++
       webhookFireEvents "payment.failed"
         { req with
           status := "error",
           error := some e,
           errorAt := some now } ++
       [PEvent.persistError ("ERROR_" ++ fileKey req)
         { req with
           status := "error",
           error := some e,
           errorAt := some now }]) := by
  simp only [processPayment, catchBlock, savePaymentWithError]
  rw [hroute, hwe]
  simp [fileKey]

/-- C8 witness: the amended theorem at a concrete failing settlement with a
succeeding error-record write. -/
theorem processPayment_propagates_original_error_witness :
    processPayment oracleSettleFail "2026-01-02T00:00:00.000Z" reqLn =
      (Except.error "no route",
       { reqLn with
         status := "error",
         error := some "no route",
         errorAt := some "2026-01-02T00:00:00.000Z" },
       webhookFireEvents "payment.pending" reqLn ++
       (routeSettlement oracleSettleFail (jsToLower reqLn.network)
         reqLn.destinationWallet reqLn.amount).2 ++
       webhookFireEvents "payment.failed"
         { reqLn with
           status := "error",
           error := some "no route",
           errorAt := some "2026-01-02T00:00:00.000Z" } ++
       [PEvent.persistError ("ERROR_" ++ fileKey reqLn)
         { reqLn with
           status := "error",
           error := some "no route",
           errorAt := some "2026-01-02T00:00:00.000Z" }]) :=
  processPayment_propagates_original_error oracleSettleFail
    "2026-01-02T00:00:00.000Z" reqLn "no route" (by decide) rfl

/- ========================================================================
   The two file partitions as a store (C6)
   ======================================================================== -/

/-- The two JSON-file partitions: `payment_req` (pending, also holding the
`ERROR_`-tagged artifacts) and `payment_sent`, each a partial map from file
key to parsed record. -/
structure PartitionState where
  pending : String → Option PaymentRecord
  sent : String → Option PaymentRecord

/-- Effect of one trace event on the partitions: the sent-partition write,
the pending-file delete (`existsSync` + `unlinkSync` net effect: the key is
absent afterwards either way), and the `ERROR_`-tagged pending-partition
write. Webhook fires and settlement calls do not touch the store. -/
def applyPEvent (s : PartitionState) : PEvent → PartitionState
  | .persistSent k r =>
      { s with sent := fun k2 => if k2 = k then some r else s.sent k2 }
  | .deletePending k =>
      { s with pending := fun k2 => if k2 = k then none else s.pending k2 }
  | .persistError k r =>
      { s with pending := fun k2 => if k2 = k then some r else s.pending k2 }
  | _ => s

/-- Left fold of `applyPEvent` over a trace. -/
def applyPEvents (s : PartitionState) (evs : List PEvent) : PartitionState :=
  evs.foldl applyPEvent s

/-- C6: `movePaymentFile` emits exactly the sent-partition write **followed
by** the pending delete; after applying any prefix of that operation
(crash at any point) the record is still present in at least one partition —
pending before the write, both partitions between write and delete
(duplicated at worst), sent afterwards — and the completed move leaves the
updated record in the sent partition and nothing under the key in
pending. -/
theorem movePaymentFile_write_then_delete (o : PPOracle)
    (s : PartitionState) (r0 r : PaymentRecord)
    (hw : o.writeSent = Except.ok ()) (hpe : o.pendingExists = true)
    (hu : o.unlinkRes = Except.ok ())
    (hpend : s.pending (fileKey r) = some r0) :
    (movePaymentFile o r).2 =
      [PEvent.persistSent (fileKey r) r,
       PEvent.deletePending (fileKey r)] ∧
    (∀ n : Nat,
      (applyPEvents s ((movePaymentFile o r).2.take n)).pending (fileKey r)
        = some r0 ∨
      (applyPEvents s ((movePaymentFile o r).2.take n)).sent (fileKey r)
        = some r) ∧
    (applyPEvents s (movePaymentFile o r).2).sent (fileKey r) = some r ∧
    (applyPEvents s (movePaymentFile o r).2).pending (fileKey r) = none := by
  have htr : (movePaymentFile o r).2 =
      [PEvent.persistSent (fileKey r) r,
       PEvent.deletePending (fileKey r)] := by
    unfold movePaymentFile
    rw [hw, hpe, hu]
    rfl
  refine ⟨htr, ?_, ?_, ?_⟩
  · intro n
    rw [htr]
    match n with
    | 0 => exact Or.inl (by simpa [applyPEvents] using hpend)
    | 1 => exact Or.inr (by simp [applyPEvents, applyPEvent])
    | m + 2 => exact Or.inr (by simp [applyPEvents, applyPEvent])
  · rw [htr]
    simp [applyPEvents, applyPEvent]
  · rw [htr]
    simp [applyPEvents, applyPEvent]

/-- C6 witness: the crash-safety conclusion at a concrete store holding the
pending record under key `id1_t1`. -/
theorem movePaymentFile_write_then_delete_witness :
    (movePaymentFile oracleAllOk reqLn).2 =
      [PEvent.persistSent (fileKey reqLn) reqLn,
       PEvent.deletePending (fileKey reqLn)] ∧
    (∀ n : Nat,
      (applyPEvents
        ⟨fun k => if k = "id1_t1" then some reqLn else none,
         fun _ => none⟩
        ((movePaymentFile oracleAllOk reqLn).2.take n)).pending
          (fileKey reqLn) = some reqLn ∨
      (applyPEvents
        ⟨fun k => if k = "id1_t1" then some reqLn else none,
         fun _ => none⟩
        ((movePaymentFile oracleAllOk reqLn).2.take n)).sent
          (fileKey reqLn) = some reqLn) ∧
    (applyPEvents
      ⟨fun k => if k = "id1_t1" then some reqLn else none, fun _ => none⟩
      (movePaymentFile oracleAllOk reqLn).2).sent (fileKey reqLn)
        = some reqLn ∧
    (applyPEvents
      ⟨fun k => if k = "id1_t1" then some reqLn else none, fun _ => none⟩
      (movePaymentFile oracleAllOk reqLn).2).pending (fileKey reqLn)
        = none :=
  movePaymentFile_write_then_delete oracleAllOk
    ⟨fun k => if k = "id1_t1" then some reqLn else none, fun _ => none⟩
    reqLn reqLn rfl rfl rfl (by simp [fileKey, reqLn])

/- ========================================================================
   getAllBalances (C7)
   ======================================================================== -/

/-- The aggregate returned by `getAllBalances`: the three per-network
snapshots plus the generation timestamp. -/
structure AllBalances (α β γ : Type) where
  bitcoin : α
  lightning : β
  liquid : γ
  timestamp : String

/-- Embedding of `PaymentProcessor.getAllBalances`: `Promise.all` over the three backend
balance calls (their outcomes are the three `Except` arguments), then the
result object with a timestamp; the surrounding `try`/`catch` only logs and
re-throws. `Promise.all` rejects as soon as any input rejects, so any
`.error` input makes the whole call an `.error` and no partial object is
ever built. -/
def getAllBalances {α β γ : Type} (btc : Except String α)
    (ln : Except String β) (lq : Except String γ) (now : String) :
    Except String (AllBalances α β γ) :=
  match btc with
  | .error e => .error e
  | .ok b =>
    match ln with
    | .error e => .error e
    | .ok l =>
      match lq with
      | .error e => .error e
      | .ok q => .ok ⟨b, l, q, now⟩

/-- C7: `getAllBalances` is all-or-nothing: if any one of the three fetches
fails, the whole call fails — with exactly that fetch's error when it is the
only failing one — and an `.ok` result exists only when all three fetches
succeeded, in which case it carries all three snapshots plus the
timestamp. -/
theorem getAllBalances_all_or_nothing {α β γ : Type}
    (btc : Except String α) (ln : Except String β) (lq : Except String γ)
    (now : String)
    (hfail : ∃ e, btc = Except.error e ∨ ln = Except.error e ∨
      lq = Except.error e) :
    (∃ e, getAllBalances btc ln lq now = Except.error e) ∧
    (∀ e, btc = Except.error e →
      getAllBalances btc ln lq now = Except.error e) ∧
    (∀ e b, btc = Except.ok b → ln = Except.error e →
      getAllBalances btc ln lq now = Except.error e) ∧
    (∀ e b l, btc = Except.ok b → ln = Except.ok l →
      lq = Except.error e →
      getAllBalances btc ln lq now = Except.error e) ∧
    (∀ b l q, btc = Except.ok b → ln = Except.ok l → lq = Except.ok q →
      getAllBalances btc ln lq now = Except.ok ⟨b, l, q, now⟩) := by
  refine ⟨?_, ?_, ?_, ?_, ?_⟩
  · rcases hfail with ⟨e, h | h | h⟩
    · subst h
      exact ⟨e, rfl⟩
    · rcases hb : btc with eb | b
      · subst hb
        exact ⟨eb, rfl⟩
      · subst hb
        subst h
        exact ⟨e, rfl⟩
    · rcases hb : btc with eb | b
      · subst hb
        exact ⟨eb, rfl⟩
      · rcases hl : ln with el | l
        · subst hb
          subst hl
          exact ⟨el, rfl⟩
        · subst hb
          subst hl
          subst h
          exact ⟨e, rfl⟩
  · intro e h
    subst h
    rfl
  · intro e b h1 h2
    subst h1
    subst h2
    rfl
  · intro e b l h1 h2 h3
    subst h1
    subst h2
    subst h3
    rfl
  · intro b l q h1 h2 h3
    subst h1
    subst h2
    subst h3
    rfl

/-- C7 witness: the aggregate rejects with the Lightning fetch's error when
only that fetch fails. -/
theorem getAllBalances_all_or_nothing_witness :
    (∃ e, getAllBalances (Except.ok 100 : Except String Nat)
      (Except.error "lnd unreachable" : Except String Nat)
      (Except.ok 7 : Except String Nat) "T3" = Except.error e) ∧
    (∀ e, (Except.ok 100 : Except String Nat) = Except.error e →
      getAllBalances (Except.ok 100 : Except String Nat)
        (Except.error "lnd unreachable" : Except String Nat)
        (Except.ok 7 : Except String Nat) "T3" = Except.error e) ∧
    (∀ e b, (Except.ok 100 : Except String Nat) = Except.ok b →
      (Except.error "lnd unreachable" : Except String Nat) =
        Except.error e →
      getAllBalances (Except.ok 100 : Except String Nat)
        (Except.error "lnd unreachable" : Except String Nat)
        (Except.ok 7 : Except String Nat) "T3" = Except.error e) ∧
    (∀ e b l, (Except.ok 100 : Except String Nat) = Except.ok b →
      (Except.error "lnd unreachable" : Except String Nat) = Except.ok l →
      (Except.ok 7 : Except String Nat) = Except.error e →
      getAllBalances (Except.ok 100 : Except String Nat)
        (Except.error "lnd unreachable" : Except String Nat)
        (Except.ok 7 : Except String Nat) "T3" = Except.error e) ∧
    (∀ b l q, (Except.ok 100 : Except String Nat) = Except.ok b →
      (Except.error "lnd unreachable" : Except String Nat) = Except.ok l →
      (Except.ok 7 : Except String Nat) = Except.ok q →
      getAllBalances (Except.ok 100 : Except String Nat)
        (Except.error "lnd unreachable" : Except String Nat)
        (Except.ok 7 : Except String Nat) "T3" =
          Except.ok ⟨b, l, q, "T3"⟩) :=
  getAllBalances_all_or_nothing (Except.ok 100)
    (Except.error "lnd unreachable") (Except.ok 7) "T3"
    ⟨"lnd unreachable", Or.inr (Or.inl rfl)⟩

/- ========================================================================
   Ingestion (src/server.js, POST /payment)
   ======================================================================== -/

/-- The `amount` value supplied in the JSON request body: either a JSON
string, or a JSON number given by its decimal numeral — sign, integer part,
fractional digits. The numeral form models numbers whose JavaScript string
rendering is the plain decimal numeral (no exponent notation). -/
inductive JSAmount where
  | str (s : String)
  | num (neg : Bool) (ip : Nat) (frac : List Nat)
deriving DecidableEq, Repr

/-- JavaScript truthiness of an `amount` value: a string is truthy iff
non-empty; a number is truthy iff nonzero. -/
def truthyAmount (a : JSAmount) : Bool :=
  match a with
  | .str s => truthyStr s
  | .num _ ip frac => !(ip == 0 && frac.all (fun d => d == 0))

/-- Truthiness of a possibly-missing string field (`undefined` is falsy). -/
def truthyOptStr (s : Option String) : Bool :=
  match s with
  | none => false
  | some s0 => truthyStr s0

/-- Truthiness of the possibly-missing `amount` field. -/
def truthyOptAmount (a : Option JSAmount) : Bool :=
  match a with
  | none => false
  | some a0 => truthyAmount a0

/-- The whitespace skipped by `parseInt`. -/
def isJsSpace (c : Char) : Bool :=
  " \t\n\r\x0b\x0c".toList.contains c

/-- Decimal digit value (code points 48-57). -/
def digitVal (c : Char) : Option Nat :=
  let n := c.toNat
  if 48 ≤ n && n ≤ 57 then some (n - 48) else none

/-- Hexadecimal digit value (code points 48-57, 97-102, 65-70). -/
def hexDigitVal (c : Char) : Option Nat :=
  let n := c.toNat
  if 48 ≤ n && n ≤ 57 then some (n - 48)
  else if 97 ≤ n && n ≤ 102 then some (n - 87)
  else if 65 ≤ n && n ≤ 70 then some (n - 55)
  else none

/-- Extend an accumulated digit value with the remaining digit prefix. -/
def extendDigits (dv : Char → Option Nat) (base : Nat) :
    List Char → Nat → Nat
  | [], acc => acc
  | c :: cs, acc =>
      match dv c with
      | none => acc
      | some d => extendDigits dv base cs (acc * base + d)

/-- Value of the longest digit prefix; `none` when there is no leading
digit. -/
def leadingDigitsVal (dv : Char → Option Nat) (base : Nat)
    (cs : List Char) : Option Nat :=
  match cs with
  | [] => none
  | c :: cs2 =>
      match dv c with
      | none => none
      | some d => some (extendDigits dv base cs2 d)

/-- JavaScript `parseInt` on a string (no explicit radix): skip leading
whitespace, optional sign, `0x`/`0X` switches to hexadecimal, then the
longest digit prefix; `none` models NaN. -/
def parseIntStr (s : String) : Option Int :=
  let cs := s.toList.dropWhile isJsSpace
  let signAndRest : Bool × List Char :=
    match cs with
    | '-' :: rest => (true, rest)
    | '+' :: rest => (false, rest)
    | _ => (false, cs)
  let core : Option Nat :=
    match signAndRest.2 with
    | '0' :: 'x' :: rest => leadingDigitsVal hexDigitVal 16 rest
    | '0' :: 'X' :: rest => leadingDigitsVal hexDigitVal 16 rest
    | rest => leadingDigitsVal digitVal 10 rest
  match core with
  | none => none
  | some n => some (if signAndRest.1 then -(n : Int) else (n : Int))

/-- Model of `parseInt(amount)` as applied by the `POST /payment` handler: a string
is parsed by `parseIntStr`; a number is first rendered (plain decimal
numeral), so `parseInt` truncates it toward zero — the integer part with the
sign. `none` models NaN. -/
def parseIntJS (a : JSAmount) : Option Int :=
  match a with
  | .str s => parseIntStr s
  | .num neg ip _ => some (if neg then -(ip : Int) else (ip : Int))

/-- The JSON body of `POST /payment`; absent fields are `none`
(`undefined`). -/
structure PaymentBody where
  transactionId : Option String
  username : Option String
  amount : Option JSAmount
  network : Option String
  destinationWallet : Option String
  webhookUrl : Option String
  webhookSecret : Option String
deriving DecidableEq, Repr

/-- The networks accepted by the `POST /payment` validation. -/
def supportedNetworks : List String :=
  ["bitcoin", "lightning", "liquid"]

/-- The `POST /payment` handler up to the hand-off to `processPayment`
(src/server.js): required-field truthiness check, supported-network check on
the lowercased network, webhook-URL validation (`validateUrl` models
`WebhookManager.validateWebhookUrl`, a check of the WHATWG-parsed scheme),
then the record construction — `id` a fresh UUID (`newId`),
`amount: parseInt(amount)`, `network` lowercased, `webhookUrl || null`,
`webhookSecret || null`, a timestamp, and `status: 'pending'`. Returns the
record persisted to the pending partition and handed to the orchestrator, or
the 400-error message. -/
def ingestPayment (validateUrl : String → Bool) (newId now : String)
    (body : PaymentBody) : Except String PaymentRecord :=
  if !(truthyOptStr body.transactionId && truthyOptStr body.username &&
       truthyOptAmount body.amount && truthyOptStr body.network &&
       truthyOptStr body.destinationWallet) then
    .error "Dados obrigatórios faltando"
  else if !(supportedNetworks.contains
      (jsToLower (body.network.getD ""))) then
    .error "Rede não suportada"
  else if (match body.webhookUrl with
           | some u => truthyStr u && !validateUrl u
           | none => false) then
    .error "URL de webhook inválida"
  else
    .ok {
      id := newId,
      transactionId := body.transactionId.getD "",
      username := body.username.getD "",
      amount := parseIntJS (body.amount.getD (.str "")),
      network := jsToLower (body.network.getD ""),
      destinationWallet := body.destinationWallet.getD "",
      webhookUrl := (match body.webhookUrl with
        | some u => if truthyStr u then some u else none
        | none => none),
      webhookSecret := (match body.webhookSecret with
        | some u => if truthyStr u then some u else none
        | none => none),
      timestamp := now,
      status := "pending",
      transactionHash := none,
      completedAt := none,
      networkFee := none,
      error := none,
      errorAt := none }

/-- Returns `true` when a trace event carries a record whose `amount` differs from
`a` — webhook payloads and persisted records both carry the full record, so
this checks the amount is never altered downstream. -/
def amountUnchanged (a : Option Int) (e : PEvent) : Bool :=
  match e with
  | .webhookSend _ r2 => r2.amount == a
  | .persistSent _ r2 => r2.amount == a
  | .persistError _ r2 => r2.amount == a
  | _ => true

theorem processPayment_amount_invariant (o : PPOracle) (now2 : String)
    (r : PaymentRecord) :
    ((processPayment o now2 r).2.1).amount = r.amount ∧
    ((processPayment o now2 r).2.2).all (amountUnchanged r.amount)
      = true := by
  obtain ⟨lnS, lqS, ws, pe, ur, wef⟩ := o
  rcases lnS with el | rl <;>
    rcases lqS with el2 | rl2 <;>
      rcases ws with ew | w1 <;>
        rcases wef with ee | w2 <;>
          rcases pe with _ | _ <;>
            rcases ur with eu | u1 <;>
              rcases hurl : r.webhookUrl with _ | u <;>
                by_cases hb : (jsToLower r.network == "bitcoin" ||
                    jsToLower r.network == "lightning") = true <;>
                  by_cases hq : (jsToLower r.network == "liquid") = true <;>
                    simp [processPayment, routeSettlement, catchBlock,
                      movePaymentFile, savePaymentWithError,
                      webhookFireEvents, amountUnchanged, hurl, hb, hq]

/-- Request body with string amount `"-5"` (all required fields truthy). -/
def bodyNegAmount : PaymentBody := {
  transactionId := some "t1",
  username := some "alice",
  amount := some (.str "-5"),
  network := some "lightning",
  destinationWallet := some "lnbc1xyz",
  webhookUrl := none,
  webhookSecret := none }

/-- Request body with non-numeric string amount `"abc"`. -/
def bodyNanAmount : PaymentBody := {
  transactionId := some "t2",
  username := some "bob",
  amount := some (.str "abc"),
  network := some "bitcoin",
  destinationWallet := some "bc1qexampleexampleexampleexampleexampleex",
  webhookUrl := none,
  webhookSecret := none }

/-- The record the gateway stores for `bodyNegAmount`. -/
def recNegAmount : PaymentRecord := {
  id := "id1",
  transactionId := "t1",
  username := "alice",
  amount := some (-5),
  network := "lightning",
  destinationWallet := "lnbc1xyz",
  webhookUrl := none,
  webhookSecret := none,
  timestamp := "T0",
  status := "pending",
  transactionHash := none,
  completedAt := none,
  networkFee := none,
  error := none,
  errorAt := none }

/-- The record the gateway stores for `bodyNanAmount`. -/
def recNanAmount : PaymentRecord := {
  id := "id2",
  transactionId := "t2",
  username := "bob",
  amount := none,
  network := "bitcoin",
  destinationWallet := "bc1qexampleexampleexampleexampleexampleex",
  webhookUrl := none,
  webhookSecret := none,
  timestamp := "T0",
  status := "pending",
  transactionHash := none,
  completedAt := none,
  networkFee := none,
  error := none,
  errorAt := none }

/-- C3 counterexample: the gateway accepts amount `"-5"` and stores the
**negative** integer `-5`, and accepts amount `"abc"` and stores NaN
(`none`) — the stored `amount` is not always a non-negative integer. -/
theorem ingest_accepts_negative_and_nan_amount :
    ingestPayment (fun _ => false) "id1" "T0" bodyNegAmount =
      Except.ok recNegAmount ∧
    recNegAmount.amount = some (-5) ∧ (-5 : Int) < 0 ∧
    ingestPayment (fun _ => false) "id2" "T0" bodyNanAmount =
      Except.ok recNanAmount ∧
    recNanAmount.amount = none := by
  refine ⟨by decide, by decide, by decide, by decide, by decide⟩

/-- C3 (amended): every request the gateway accepts stores
`amount = parseInt(supplied amount)` — the coercion (including truncation of
fractional numbers toward zero and parsing of strings, possibly to NaN)
happens once, at ingestion — and the pipeline never modifies it afterwards:
the record `processPayment` returns, every webhook payload it fires and
every record it persists carry the same `amount`. Non-negativity is **not**
guaranteed: negative and NaN amounts pass validation. -/
theorem ingest_amount_coerced_once (validateUrl : String → Bool)
    (newId now : String) (body : PaymentBody) (rec : PaymentRecord)
    (hacc : ingestPayment validateUrl newId now body = Except.ok rec) :
    (∃ a, body.amount = some a ∧ rec.amount = parseIntJS a) ∧
    (∀ o now2, ((processPayment o now2 rec).2.1).amount = rec.amount ∧
      ((processPayment o now2 rec).2.2).all (amountUnchanged rec.amount)
        = true) := by
  constructor
  · unfold ingestPayment at hacc
    split at hacc
    · exact absurd hacc (by simp)
    · split at hacc
      · exact absurd hacc (by simp)
      · split at hacc
        · exact absurd hacc (by simp)
        · rename_i hg1 hg2 hg3
          simp only [Bool.not_eq_true', Bool.not_eq_false,
            Bool.and_eq_true] at hg1
          rcases hba : body.amount with _ | a
          · rw [hba] at hg1
            simp [truthyOptAmount] at hg1
          · refine ⟨a, rfl, ?_⟩
            simp only [Except.ok.injEq] at hacc
            subst hacc
            rw [hba]
            rfl
  · intro o now2
    exact processPayment_amount_invariant o now2 rec

/-- Request body with the fractional number amount `10.9`. -/
def bodyFracAmount : PaymentBody := {
  transactionId := some "t3",
  username := some "carol",
  amount := some (.num false 10 [9]),
  network := some "lightning",
  destinationWallet := some "lnbc1xyz",
  webhookUrl := none,
  webhookSecret := none }

/-- The record the gateway stores for `bodyFracAmount`: `10.9` truncated to
`10` at ingestion. -/
def recFracAmount : PaymentRecord := {
  id := "id3",
  transactionId := "t3",
  username := "carol",
  amount := some 10,
  network := "lightning",
  destinationWallet := "lnbc1xyz",
  webhookUrl := none,
  webhookSecret := none,
  timestamp := "T0",
  status := "pending",
  transactionHash := none,
  completedAt := none,
  networkFee := none,
  error := none,
  errorAt := none }

/-- C3 witness: the amended theorem at the fractional amount `10.9`,
coerced to `10` at ingestion and carried unchanged downstream. -/
theorem ingest_amount_coerced_once_witness :
    (∃ a, bodyFracAmount.amount = some a ∧
      recFracAmount.amount = parseIntJS a) ∧
    (∀ o now2,
      ((processPayment o now2 recFracAmount).2.1).amount =
        recFracAmount.amount ∧
      ((processPayment o now2 recFracAmount).2.2).all
        (amountUnchanged recFracAmount.amount) = true) :=
  ingest_amount_coerced_once (fun _ => false) "id3" "T0" bodyFracAmount
    recFracAmount (by decide)
